import Mathlib

/-!
Shallow embedding of `homework.py`, a single-file polling bot that repeatedly
fetches homework-review statuses from an HTTP API and forwards human-readable
notifications to a chat.

Modelling conventions:
  - Python values decoded from JSON are modelled by the mutual inductive
    `PyVal` / `PyList` / `PyDict` (floats are omitted: none occur in this
    program's data).  Python `==` is `pyBeq` (note `True == 1` holds in
    Python, so `pyBeq` is numeric on booleans), truthiness is `pyTruthy`.
  - Raised exceptions are modelled by `Except PyError α`; `PyError` carries
    the exception class and message.  `str(exception)` is `errStr` (Python
    renders `KeyError` through the repr of its argument, hence the quotes).
  - Logging is explicit: each function returns the list of log lines it
    emitted, in order, next to its result.
  - The network and the bot transport are oracles: an `HttpResponse` packages
    the status code, the truthiness of the `requests` response object
    (`bool(response)` — which the library derives from the status code, not
    from the body), and the decoded JSON body.  A telegram send outcome is
    `Option String` (`some detail` = the `TelegramError` raised).
  - One iteration of `main`'s `while True` loop is `cycle`.  The local
    variables `status` and `new_status` are assigned within the iteration
    before every use (the `else` clause runs only when the `try` suite
    completed, which assigned `status`), so the iteration function takes no
    incoming state.
-/

namespace HomeworkBot

/-- Logging levels used by the module logger (`logging` levels that occur in
the source: debug, info, error, critical). -/
inductive Level where
  | debug
  | info
  | error
  | critical
deriving DecidableEq, Repr

/-- One emitted log line: its level and its message. -/
abbrev Log := Level × String

mutual
/-- Python values decoded from JSON (plus `None`), as handled by the source:
`None`, strings, integers, booleans, lists and string-keyed dicts. -/
inductive PyVal where
  | none
  | str (s : String)
  | int (n : Int)
  | bool (b : Bool)
  | list (xs : PyList)
  | dict (kvs : PyDict)
/-- A Python list of `PyVal`s. -/
inductive PyList where
  | nil
  | cons (hd : PyVal) (tl : PyList)
/-- A Python dict with string keys, as produced by JSON decoding. -/
inductive PyDict where
  | nil
  | cons (key : String) (val : PyVal) (tl : PyDict)
end

/-- Numeric value of a Python boolean (`True == 1`, `False == 0`). -/
def boolToInt (b : Bool) : Int := if b then 1 else 0

mutual
/-- Python `==` on the embedded values.  Structural except on booleans, which
compare numerically with integers as in Python. -/
def pyBeq : PyVal → PyVal → Bool
  | .none, .none => true
  | .str a, .str b => a == b
  | .int a, .int b => a == b
  | .bool a, .bool b => a == b
  | .bool a, .int b => boolToInt a == b
  | .int a, .bool b => a == boolToInt b
  | .list xs, .list ys => pyBeqList xs ys
  | .dict xs, .dict ys => pyBeqDict xs ys
  | _, _ => false
/-- Python `==` on lists: pointwise. -/
def pyBeqList : PyList → PyList → Bool
  | .nil, .nil => true
  | .cons x xs, .cons y ys => pyBeq x y && pyBeqList xs ys
  | _, _ => false
/-- Python `==` on dicts, in representation order (the embedding stores dicts
as ordered association lists without duplicate keys). -/
def pyBeqDict : PyDict → PyDict → Bool
  | .nil, .nil => true
  | .cons k v tl, .cons k2 v2 tl2 => k == k2 && pyBeq v v2 && pyBeqDict tl tl2
  | _, _ => false
end

/-- Python truthiness of an embedded value: `None`, `""`, `0`, `False`, `[]`
and the empty dict are falsy, everything else is truthy. -/
def pyTruthy : PyVal → Bool
  | .none => false
  | .str s => s != ""
  | .int n => n != 0
  | .bool b => b
  | .list .nil => false
  | .list (.cons _ _) => true
  | .dict .nil => false
  | .dict (.cons _ _ _) => true

/-- Lookup of a string key in an embedded dict. -/
def dictLookup : PyDict → String → Option PyVal
  | .nil, _ => Option.none
  | .cons k v tl, key => if k = key then some v else dictLookup tl key

/-- Whether `pre` is an initial segment of `l` (character lists). -/
def listIsPre : List Char → List Char → Bool
  | [], _ => true
  | _ :: _, [] => false
  | a :: as, b :: bs => a == b && listIsPre as bs

/-- Whether `sub` occurs contiguously inside `l` (character lists). -/
def listHasSub (sub : List Char) : List Char → Bool
  | [] => listIsPre sub []
  | c :: cs => listIsPre sub (c :: cs) || listHasSub sub cs

/-- Python substring test `sub in s` for strings. -/
def strHasSub (s sub : String) : Bool := listHasSub sub.toList s.toList

/-- Python exceptions that the source raises or propagates, with the message
(or, for an unbound local, the variable name). -/
inductive PyError where
  | exn (msg : String)
  | httpError (msg : String)
  | typeError (msg : String)
  | keyError (msg : String)
  | indexError (msg : String)
  | unboundLocal (varName : String)
deriving DecidableEq, Repr

/-- Python `str(exception)`, as interpolated by f-strings: the message for
`Exception`, `HTTPError`, `TypeError`, `IndexError`; the repr of the argument
(hence quoted) for `KeyError`; the interpreter's wording for an
`UnboundLocalError`. -/
def errStr : PyError → String
  | .exn m => m
  | .httpError m => m
  | .typeError m => m
  | .keyError m => "'" ++ m ++ "'"
  | .indexError m => m
  | .unboundLocal v => "local variable '" ++ v ++ "' referenced before assignment"

/-- Python membership `key in container` for a string `key`: key lookup on
dicts, element equality on lists, substring test on strings, `TypeError` on
non-iterables. -/
def pyContains : PyVal → String → Except PyError Bool
  | .dict kvs, key => .ok (dictLookup kvs key).isSome
  | .list xs, key => .ok (pyListHasStr xs key)
  | .str s, key => .ok (strHasSub s key)
  | .none, _ => .error (.typeError "argument of type 'NoneType' is not iterable")
  | .int _, _ => .error (.typeError "argument of type 'int' is not iterable")
  | .bool _, _ => .error (.typeError "argument of type 'bool' is not iterable")
where
  /-- Whether some element of the list equals (Python `==`) the given string. -/
  pyListHasStr : PyList → String → Bool
  | .nil, _ => false
  | .cons h tl, key => pyBeq h (.str key) || pyListHasStr tl key

/-- Python subscription `container[key]` with a string key: dict lookup
(raising `KeyError` on a missing key), `TypeError` otherwise. -/
def pyGetItemStr : PyVal → String → Except PyError PyVal
  | .dict kvs, key =>
    match dictLookup kvs key with
    | some v => .ok v
    | Option.none => .error (.keyError key)
  | .list _, _ => .error (.typeError "list indices must be integers or slices, not str")
  | .str _, _ => .error (.typeError "string indices must be integers")
  | .none, _ => .error (.typeError "'NoneType' object is not subscriptable")
  | .int _, _ => .error (.typeError "'int' object is not subscriptable")
  | .bool _, _ => .error (.typeError "'bool' object is not subscriptable")

mutual
/-- Python `repr` of an embedded value (string quote escaping inside reprs is
not modelled; no value in this development needs it). -/
def pyRepr : PyVal → String
  | .none => "None"
  | .str s => "'" ++ s ++ "'"
  | .int n => toString n
  | .bool b => if b then "True" else "False"
  | .list xs => "[" ++ pyListRepr xs ++ "]"
  | .dict kvs => "\x7b" ++ pyDictRepr kvs ++ "\x7d"
/-- Comma-separated reprs of the elements of a list. -/
def pyListRepr : PyList → String
  | .nil => ""
  | .cons x .nil => pyRepr x
  | .cons x tl => pyRepr x ++ ", " ++ pyListRepr tl
/-- Comma-separated `'key': repr` pairs of a dict. -/
def pyDictRepr : PyDict → String
  | .nil => ""
  | .cons k v .nil => "'" ++ k ++ "': " ++ pyRepr v
  | .cons k v tl => "'" ++ k ++ "': " ++ pyRepr v ++ ", " ++ pyDictRepr tl
end

/-- Python `str()` of an embedded value, as used by f-string interpolation:
strings verbatim, containers through their repr. -/
def pyToString : PyVal → String
  | .none => "None"
  | .str s => s
  | .int n => toString n
  | .bool b => if b then "True" else "False"
  | .list xs => "[" ++ pyListRepr xs ++ "]"
  | .dict kvs => "\x7b" ++ pyDictRepr kvs ++ "\x7d"

/-- The `HOMEWORK_STATUSES` constant of the source: status code to verdict. -/
def HOMEWORK_STATUSES : List (String × String) :=
  [("approved", "Работа проверена: ревьюеру всё понравилось. Ура!"),
   ("reviewing", "Работа взята на проверку ревьюером."),
   ("rejected", "Работа проверена: у ревьюера есть замечания.")]

/-- Association-list lookup with string keys (Python `dict.get`). -/
def lookupStr : List (String × String) → String → Option String
  | [], _ => Option.none
  | (k, v) :: tl, key => if k = key then some v else lookupStr tl key

/-- Verdict for a status code (`HOMEWORK_STATUSES.get(status)`). -/
def lookupVerdict (status : String) : Option String :=
  lookupStr HOMEWORK_STATUSES status

/-- Key membership of a hashable value in `HOMEWORK_STATUSES` (string keys
compare by equality; other hashable values are simply absent). -/
def isKnownStatus : PyVal → Bool
  | .str s => (lookupVerdict s).isSome
  | _ => false

/-- Whether a value is hashable in Python, i.e. usable as the left operand of
a dict membership test: everything here except lists and dicts. -/
def pyHashable : PyVal → Bool
  | .list _ => false
  | .dict _ => false
  | _ => true

/-- Python membership `value in HOMEWORK_STATUSES`: string keys compare by
equality; `None`, numbers and booleans are hashable and simply absent; lists
and dicts are unhashable, so the membership test itself raises
`TypeError: unhashable type: ...`. -/
def statusInCatalog : PyVal → Except PyError Bool
  | .str s => .ok (lookupVerdict s).isSome
  | .none => .ok false
  | .int _ => .ok false
  | .bool _ => .ok false
  | .list _ => .error (.typeError "unhashable type: 'list'")
  | .dict _ => .error (.typeError "unhashable type: 'dict'")

/-- The `RETRY_TIME` constant of the source (seconds between cycles). -/
def RETRY_TIME : Nat := 600

/-- `send_message(bot, message)` of the source.  The bot transport outcome is
the oracle `sendFail` (`some detail` models `bot.send_message` raising
`TelegramError(detail)`, `none` models success).  The function catches the
`TelegramError`, logs, and returns normally in every case — hence its result
type carries no exception. -/
def send_message (sendFail : Option String) (message : String) : List Log :=
  match sendFail with
  | some error =>
    [(Level.error, "Бот не смог отправить сообщение " ++ message ++ ". Ошибка " ++ error)]
  | Option.none =>
    [(Level.info, "Бот отправил сообщение \"" ++ message ++ "\"")]

/-- An HTTP response as delivered by `requests.get`: the status code, the
truthiness of the response object (`bool(response)`, which the `requests`
library defines from the status code — it is not a property of the body), and
the JSON-decoded body (`response.json()`). -/
structure HttpResponse where
  statusCode : Nat
  truthy : Bool
  body : PyVal

/-- `get_api_answer(current_timestamp)` of the source, with the network
modelled as the already-received response `resp`.  The timestamp only feeds
the request parameters, which have no observable effect here.  Compares the
status code against `HTTPStatus.OK` (200), then tests `not response`, logging
an error before each raise; on success returns the decoded body. -/
def get_api_answer (resp : HttpResponse) : List Log × Except PyError PyVal :=
  if resp.statusCode ≠ 200 then
    let message := "Код ответа API: " ++ toString resp.statusCode
    ([(Level.error, message)], .error (.httpError message))
  else if resp.truthy = false then
    let message := "Получен пусто ответ при обращении к API"
    ([(Level.error, message)], .error (.exn message))
  else
    ([], .ok resp.body)

/-- `check_response(response)` of the source: rejects falsy responses
(generic `Exception`), non-dicts (`TypeError`), a missing `"homeworks"` or
`"current_date"` key (`KeyError`, checked in that order), and a
non-list `"homeworks"` value (`TypeError`); otherwise returns the homework
list.  Each rejection logs an error first. -/
def check_response (response : PyVal) : List Log × Except PyError PyList :=
  if pyTruthy response = false then
    let message := "Получен пустой ответ при обращении к API"
    ([(Level.error, message)], .error (.exn message))
  else
    match response with
    | .dict kvs =>
      match dictLookup kvs "homeworks" with
      | Option.none =>
        let message := "Отсутствует ключ \"homeworks\" в ответе API"
        ([(Level.error, message)], .error (.keyError message))
      | some homeworks =>
        match dictLookup kvs "current_date" with
        | Option.none =>
          let message := "Отсутствует ключ \"current_date\" в ответе API"
          ([(Level.error, message)], .error (.keyError message))
        | some _ =>
          match homeworks with
          | .list xs => ([], .ok xs)
          | _ =>
            let message := "Объект по ключу \"homeworks\" не является списком"
            ([(Level.error, message)], .error (.typeError message))
    | _ =>
      let message := "Получен некорретный ответ при обрщаении к API"
      ([(Level.error, message)], .error (.typeError message))

/-- `parse_status(homework)` of the source.  Checks the `"homework_name"` and
`"status"` keys (logging and raising `KeyError` when absent); then, exactly as
the source does, logs an error — without assigning the local — when the name
is falsy or the status is unknown, and finally builds the f-string, which
raises `UnboundLocalError` if either local was never assigned.  The
membership test `homework['status'] not in HOMEWORK_STATUSES` itself raises
`TypeError` when the status value is unhashable (a list or dict), before any
unknown-status log. -/
def parse_status (homework : PyVal) : List Log × Except PyError String :=
  match pyContains homework "homework_name" with
  | .error e => ([], .error e)
  | .ok false =>
    let message := "Отсутствует ключ \"homework_name\" в объекте \"homework\""
    ([(Level.error, message)], .error (.keyError message))
  | .ok true =>
    match pyContains homework "status" with
    | .error e => ([], .error e)
    | .ok false =>
      let message := "Отсутствует ключ \"status\" в объекте \"homework\""
      ([(Level.error, message)], .error (.keyError message))
    | .ok true =>
      match pyGetItemStr homework "homework_name" with
      | .error e => ([], .error e)
      | .ok nameVal =>
        let nameBranch : List Log × Option PyVal :=
          if pyTruthy nameVal = false then
            ([(Level.error, "Отсуствует имя проекта")], Option.none)
          else
            ([], some nameVal)
        match pyGetItemStr homework "status" with
        | .error e => (nameBranch.1, .error e)
        | .ok statusVal =>
          match statusInCatalog statusVal with
          | .error e => (nameBranch.1, .error e)
          | .ok _ =>
          let verdictBranch : List Log × Option String :=
            match statusVal with
            | .str s =>
              match lookupVerdict s with
              | some v => ([], some v)
              | Option.none => ([(Level.error, "Неизвестный статус проекта")], Option.none)
            | _ => ([(Level.error, "Неизвестный статус проекта")], Option.none)
          let logs := nameBranch.1 ++ verdictBranch.1
          match nameBranch.2 with
          | Option.none => (logs, .error (.unboundLocal "homework_name"))
          | some assignedName =>
            match verdictBranch.2 with
            | Option.none => (logs, .error (.unboundLocal "verdict"))
            | some verdict =>
              (logs, .ok ("Изменился статус проверки работы \"" ++ pyToString assignedName
                          ++ "\". " ++ verdict))

/-- `check_tokens()` of the source: `all` of the truthiness of the three
environment values, with a critical log when some value is missing. -/
def check_tokens (practicumToken telegramToken telegramChatId : PyVal) : List Log × Bool :=
  let result := pyTruthy practicumToken && pyTruthy telegramToken && pyTruthy telegramChatId
  if result = false then
    ([(Level.critical, "Отсутствует обязательная переменная окружения")], result)
  else
    ([], result)

/-- The status derivation `status = homework[0]['status'] if homework else None`
performed by `main` on a validated homework list. -/
def firstStatus : PyList → Except PyError PyVal
  | .nil => .ok .none
  | .cons h _ => pyGetItemStr h "status"

/-- The environment one loop iteration of `main` runs against: the three
environment values (`os.getenv` results: `None` or a string), the HTTP
responses served to the iteration's first and second `get_api_answer` call,
and the telegram transport outcome for whichever `send_message` call the
iteration makes (the `except` path and the `else` path are mutually
exclusive, so one oracle suffices). -/
structure Env where
  practicumToken : PyVal
  telegramToken : PyVal
  telegramChatId : PyVal
  fetch1 : HttpResponse
  fetch2 : HttpResponse
  sendFail : Option String

/-- The `try` suite of `main`'s loop body after the token check: first fetch,
validation, and derivation of the local `status`; the emitted logs together
with the raised exception or the derived status. -/
def tryPhase (env : Env) : List Log × Except PyError PyVal :=
  match get_api_answer env.fetch1 with
  | (l1, .error e) => (l1, .error e)
  | (l1, .ok response) =>
    match check_response response with
    | (l2, .error e) => (l1 ++ l2, .error e)
    | (l2, .ok homeworks) =>
      match firstStatus homeworks with
      | .error e => (l1 ++ l2, .error e)
      | .ok s => (l1 ++ l2, .ok s)

/-- The `else` suite of `main`'s loop body: the second fetch and validation,
derivation of `new_status`, and the notify-or-debug decision
`if new_status and status != new_status`.  Returns the emitted logs, the
messages handed to `send_message`, and `()` or the raised exception —
which `main` does NOT catch on this path. -/
def elsePhase (env : Env) (status : PyVal) : List Log × List String × Except PyError Unit :=
  match get_api_answer env.fetch2 with
  | (l1, .error e) => (l1, [], .error e)
  | (l1, .ok response) =>
    match check_response response with
    | (l2, .error e) => (l1 ++ l2, [], .error e)
    | (l2, .ok homeworks) =>
      match firstStatus homeworks with
      | .error e => (l1 ++ l2, [], .error e)
      | .ok newStatus =>
        if pyTruthy newStatus && !(pyBeq status newStatus) then
          match homeworks with
          | .nil => (l1 ++ l2, [], .error (.indexError "list index out of range"))
          | .cons h _ =>
            match parse_status h with
            | (l3, .error e) => (l1 ++ l2 ++ l3, [], .error e)
            | (l3, .ok message) =>
              (l1 ++ l2 ++ l3 ++ send_message env.sendFail message, [message], .ok ())
        else
          (l1 ++ l2 ++ [(Level.debug, "Статус работы не изменился")], [], .ok ())

/-- How one loop iteration of `main` ends: `exited` models `sys.exit()` (a
`SystemExit`, which `except Exception` does not catch), `continued` models
falling through to the next iteration, and `crashed e` models an exception
escaping the loop — and hence the process — uncaught. -/
inductive CycleOutcome where
  | exited
  | continued
  | crashed (e : PyError)
deriving DecidableEq, Repr

/-- Observable record of one loop iteration: the log lines, the messages
handed to `send_message`, how many HTTP fetches were performed, and the
outcome. -/
structure CycleResult where
  logs : List Log
  sent : List String
  fetches : Nat
  outcome : CycleOutcome

/-- One iteration of `main`'s `while True` loop.  Inside the `try`: the token
check (`sys.exit()` when it fails), then `tryPhase`.  An exception from the
`try` suite is caught by `except Exception`: it is logged as
`f'Сбой в работе программы: {error}'`, that message is best-effort sent to
the chat, and the loop continues after the sleep.  When the `try` suite
succeeds, the `else` suite (`elsePhase`) runs OUTSIDE the handler: an
exception there crashes the process. -/
def cycle (env : Env) : CycleResult :=
  match check_tokens env.practicumToken env.telegramToken env.telegramChatId with
  | (tl, false) => ⟨tl, [], 0, .exited⟩
  | (tl, true) =>
    match tryPhase env with
    | (pl, .error e) =>
      let message := "Сбой в работе программы: " ++ errStr e
      ⟨tl ++ pl ++ [(Level.error, message)] ++ send_message env.sendFail message,
       [message], 1, .continued⟩
    | (pl, .ok status) =>
      match elsePhase env status with
      | (el, es, .error e) => ⟨tl ++ pl ++ el, es, 2, .crashed e⟩
      | (el, es, .ok _) => ⟨tl ++ pl ++ el, es, 2, .continued⟩

/-- Result component of `tryPhase` (the derived `status` or the exception). -/
def tryResult (env : Env) : Except PyError PyVal := (tryPhase env).2

/-- The homework list derived by the second fetch-and-validate pass of a
cycle (the `else` suite), or the exception it raises. -/
def secondHomeworks (env : Env) : Except PyError PyList :=
  match (get_api_answer env.fetch2).2 with
  | .error e => .error e
  | .ok response => (check_response response).2

/-- The `new_status` local derived by the `else` suite of a cycle, or the
exception raised deriving it. -/
def elseStatus (env : Env) : Except PyError PyVal :=
  match secondHomeworks env with
  | .error e => .error e
  | .ok homeworks => firstStatus homeworks

/-- The first homework record of the second fetch of a cycle
(`homework[0]`), or the exception raised obtaining it. -/
def firstHomework2 (env : Env) : Except PyError PyVal :=
  match secondHomeworks env with
  | .error e => .error e
  | .ok .nil => .error (.indexError "list index out of range")
  | .ok (.cons h _) => .ok h

/-- Modelled from the spec (PollLoop transition rule): with a persistent
`last_known_status`, a cycle notifies exactly when the newly fetched status
is non-null/truthy and differs from the previously recorded value.  Stated
from the spec's words, for comparison with the source's `cycle`. -/
def specNotifies (lastKnown newStatus : PyVal) : Bool :=
  pyTruthy newStatus && !(pyBeq lastKnown newStatus)

/-- A well-formed homework record with the given name and status. -/
def hwRecord (name status : String) : PyVal :=
  .dict (.cons "homework_name" (.str name) (.cons "status" (.str status) .nil))

/-- A well-formed API payload whose single homework has the given name and
status. -/
def goodPayload (name status : String) : PyVal :=
  .dict (.cons "homeworks" (.list (.cons (hwRecord name status) .nil))
        (.cons "current_date" (.int 1234567890) .nil))

/-- A 200 response object (truthy, as `requests` makes every 200 response)
carrying the given body. -/
def okResp (body : PyVal) : HttpResponse := ⟨200, true, body⟩

/-- An environment with all three credentials present, the two given
responses, and a succeeding telegram transport. -/
def envWith (f1 f2 : HttpResponse) : Env :=
  ⟨.str "practicum-token", .str "telegram-token", .str "chat-id", f1, f2, Option.none⟩

/-- Cycle environment A: both fetches report status `"approved"`. -/
def envA : Env :=
  envWith (okResp (goodPayload "hw" "approved")) (okResp (goodPayload "hw" "approved"))

/-- Cycle environment B: the first fetch reports `"rejected"`, the second
`"approved"`. -/
def envB : Env :=
  envWith (okResp (goodPayload "hw" "rejected")) (okResp (goodPayload "hw" "approved"))

/-- Cycle environment whose first fetch fails with HTTP 404 and whose second
fetch would succeed. -/
def env404 : Env :=
  envWith ⟨404, true, .none⟩ (okResp (goodPayload "hw" "approved"))

/-- Cycle environment whose first fetch succeeds and whose second fetch fails
with HTTP 404. -/
def envElse404 : Env :=
  envWith (okResp (goodPayload "hw" "approved")) ⟨404, true, .none⟩

mutual
/-- Python `==` is reflexive on the embedded values. -/
theorem pyBeq_refl : ∀ v : PyVal, pyBeq v v = true
  | .none => rfl
  | .str a => by simp [pyBeq]
  | .int a => by simp [pyBeq]
  | .bool a => by simp [pyBeq]
  | .list xs => by simp [pyBeq, pyBeqList_refl xs]
  | .dict xs => by simp [pyBeq, pyBeqDict_refl xs]
/-- Python `==` is reflexive on embedded lists. -/
theorem pyBeqList_refl : ∀ xs : PyList, pyBeqList xs xs = true
  | .nil => rfl
  | .cons x xs => by simp [pyBeqList, pyBeq_refl x, pyBeqList_refl xs]
/-- Python `==` is reflexive on embedded dicts. -/
theorem pyBeqDict_refl : ∀ xs : PyDict, pyBeqDict xs xs = true
  | .nil => rfl
  | .cons k v tl => by simp [pyBeqDict, pyBeq_refl v, pyBeqDict_refl tl]
end

/-- When all three credentials are truthy, `check_tokens` logs nothing and
returns `True`. -/
theorem check_tokens_of_true (a b c : PyVal)
    (h : (pyTruthy a && pyTruthy b && pyTruthy c) = true) :
    check_tokens a b c = ([], true) := by
  simp [check_tokens, h]

/-- Inversion for `secondHomeworks`: a successful second fetch-and-validate
pass decomposes into a successful `get_api_answer` and a successful
`check_response`. -/
theorem secondHomeworks_elim (env : Env) (homeworks : PyList)
    (h : secondHomeworks env = .ok homeworks) :
    ∃ l1 resp l2, get_api_answer env.fetch2 = (l1, .ok resp) ∧
      check_response resp = (l2, .ok homeworks) := by
  rcases hga : get_api_answer env.fetch2 with ⟨l1, r1⟩
  cases r1 with
  | error e => simp [secondHomeworks, hga] at h
  | ok resp =>
    rcases hcr : check_response resp with ⟨l2, r2⟩
    cases r2 with
    | error e => simp [secondHomeworks, hga, hcr] at h
    | ok hw =>
      have hhw : hw = homeworks := by simpa [secondHomeworks, hga, hcr] using h
      subst hhw
      exact ⟨l1, resp, l2, rfl, hcr⟩

/-- Claim C4: for every record containing both keys `homework_name` (with a
non-empty string value) and `status` (a key of the status catalog),
`parse_status` returns exactly
`Изменился статус проверки работы "{name}". {verdict}` with the verdict
looked up from `HOMEWORK_STATUSES`, and logs nothing. -/
theorem c4_parse_status_wellformed (kvs : PyDict) (name st verdict : String)
    (hname : dictLookup kvs "homework_name" = some (.str name))
    (hnz : name ≠ "")
    (hst : dictLookup kvs "status" = some (.str st))
    (hv : lookupVerdict st = some verdict) :
    parse_status (.dict kvs) =
      ([], .ok ("Изменился статус проверки работы \"" ++ name ++ "\". " ++ verdict)) := by
  simp [parse_status, pyContains, pyGetItemStr, statusInCatalog, hname, hst, hv, pyTruthy,
    pyToString, hnz]

/-- Witness for C4: the claim's own instance,
`format({homework_name:"X", status:"approved"})`. -/
theorem c4_parse_status_wellformed_witness :
    parse_status (hwRecord "X" "approved") =
      ([], .ok "Изменился статус проверки работы \"X\". Работа проверена: ревьюеру всё понравилось. Ура!") := by
  have h := c4_parse_status_wellformed
    (.cons "homework_name" (.str "X") (.cons "status" (.str "approved") .nil))
    "X" "approved" "Работа проверена: ревьюеру всё понравилось. Ура!"
    rfl (by decide) rfl rfl
  exact h

/-- Counterexample to C5 as stated: the empty dict payload lacks both
`homeworks` and `current_date`, yet `check_response` raises the generic
empty-response `Exception` (the falsiness check fires first), not a
`KeyError`. -/
theorem c5_counterexample_empty_dict :
    dictLookup PyDict.nil "homeworks" = Option.none ∧
    dictLookup PyDict.nil "current_date" = Option.none ∧
    check_response (.dict .nil) =
      ([(Level.error, "Получен пустой ответ при обращении к API")],
       .error (.exn "Получен пустой ответ при обращении к API")) :=
  ⟨rfl, rfl, rfl⟩

/-- Claim C5 as amended: for every non-empty dict payload in which
`homeworks` or `current_date` is absent, `check_response` raises `KeyError`
naming an absent key in its message (`homeworks` is checked first). -/
theorem c5_amended_missing_key (kvs : PyDict) (hne : kvs ≠ PyDict.nil)
    (hmiss : dictLookup kvs "homeworks" = Option.none ∨
             dictLookup kvs "current_date" = Option.none) :
    ∃ k, (k = "homeworks" ∨ k = "current_date") ∧ dictLookup kvs k = Option.none ∧
      (check_response (.dict kvs)).2 =
        .error (.keyError ("Отсутствует ключ \"" ++ k ++ "\" в ответе API")) := by
  have htruthy : pyTruthy (.dict kvs) = true := by
    cases kvs with
    | nil => exact absurd rfl hne
    | cons k v tl => rfl
  cases hhw : dictLookup kvs "homeworks" with
  | none =>
    refine ⟨"homeworks", Or.inl rfl, hhw, ?_⟩
    simp [check_response, htruthy, hhw]
  | some hw =>
    have hcd : dictLookup kvs "current_date" = Option.none := by
      rcases hmiss with h | h
      · rw [h] at hhw; exact absurd hhw (by simp)
      · exact h
    refine ⟨"current_date", Or.inr rfl, hcd, ?_⟩
    simp [check_response, htruthy, hhw, hcd]

/-- Witness for the amended C5: a payload carrying only `current_date`. -/
theorem c5_amended_missing_key_witness :
    ∃ k, (k = "homeworks" ∨ k = "current_date") ∧
      dictLookup (PyDict.cons "current_date" (.int 1) .nil) k = Option.none ∧
      (check_response (.dict (.cons "current_date" (.int 1) .nil))).2 =
        .error (.keyError ("Отсутствует ключ \"" ++ k ++ "\" в ответе API")) :=
  c5_amended_missing_key (PyDict.cons "current_date" (.int 1) .nil)
    (fun h => PyDict.noConfusion h) (Or.inl rfl)

/-- Claim C6: for every response whose HTTP status is not 200,
`get_api_answer` raises `HTTPError` with message
`Код ответа API: {status_code}` — which contains the numeric status code —
after logging that same message at error level. -/
theorem c6_non200_transport_error (resp : HttpResponse)
    (hne : resp.statusCode ≠ 200) :
    get_api_answer resp =
      ([(Level.error, "Код ответа API: " ++ toString resp.statusCode)],
       .error (.httpError ("Код ответа API: " ++ toString resp.statusCode))) ∧
    ∃ p q, "Код ответа API: " ++ toString resp.statusCode
        = p ++ toString resp.statusCode ++ q := by
  refine ⟨by simp [get_api_answer, hne], "Код ответа API: ", "", ?_⟩
  simp

/-- Witness for C6: status 404 yields an error message containing `404`. -/
theorem c6_non200_transport_error_witness :
    get_api_answer ⟨404, true, .none⟩ =
      ([(Level.error, "Код ответа API: 404")],
       .error (.httpError "Код ответа API: 404")) ∧
    ∃ p q, "Код ответа API: 404" = p ++ "404" ++ q := by
  have h := c6_non200_transport_error ⟨404, true, .none⟩ (by decide)
  exact h

/-- Claim C7: when any of the three environment values is missing (falsy),
one loop iteration logs a critical error and exits (`sys.exit()` raises
`SystemExit`, which `except Exception` does not catch) with zero HTTP
fetches performed and no message sent. -/
theorem c7_missing_credentials_exit (env : Env)
    (h : (pyTruthy env.practicumToken && pyTruthy env.telegramToken
          && pyTruthy env.telegramChatId) = false) :
    cycle env = ⟨[(Level.critical, "Отсутствует обязательная переменная окружения")],
                 [], 0, .exited⟩ := by
  have hck : check_tokens env.practicumToken env.telegramToken env.telegramChatId
      = ([(Level.critical, "Отсутствует обязательная переменная окружения")], false) := by
    simp [check_tokens, h]
  simp [cycle, hck]

/-- Witness for C7: a missing API token. -/
theorem c7_missing_credentials_exit_witness :
    cycle ⟨.none, .str "telegram-token", .str "chat-id",
           okResp (goodPayload "hw" "approved"), okResp (goodPayload "hw" "approved"),
           Option.none⟩ =
      ⟨[(Level.critical, "Отсутствует обязательная переменная окружения")],
       [], 0, .exited⟩ :=
  c7_missing_credentials_exit _ rfl

/-- Claim C8: `send_message` never raises to its caller — it is a total
function into a log list.  On transport failure it emits exactly one error
log whose message contains the original error detail; on success it emits
exactly one informational confirmation. -/
theorem c8_send_message_never_raises (e m : String) :
    send_message (some e) m =
      [(Level.error, "Бот не смог отправить сообщение " ++ m ++ ". Ошибка " ++ e)] ∧
    (∃ p q, "Бот не смог отправить сообщение " ++ m ++ ". Ошибка " ++ e = p ++ e ++ q) ∧
    send_message Option.none m =
      [(Level.info, "Бот отправил сообщение \"" ++ m ++ "\"")] :=
  ⟨rfl, ⟨"Бот не смог отправить сообщение " ++ m ++ ". Ошибка ", "", by simp⟩, rfl⟩

/-- Counterexample to C9 as stated: a record carrying both required keys
whose status value is a list — which is not one of the catalog keys — makes
the membership test `homework['status'] not in HOMEWORK_STATUSES` itself
raise `TypeError: unhashable type: 'list'`: no error is logged, no local is
left unassigned and later referenced, and the f-string is never reached. -/
theorem c9_counterexample_unhashable_status :
    parse_status (.dict (.cons "homework_name" (.str "X")
        (.cons "status" (.list .nil) .nil))) =
      ([], .error (.typeError "unhashable type: 'list'")) :=
  rfl

/-- Claim C9 as amended: for every record carrying both required keys whose
name value is falsy or whose status is a hashable value (a string, number,
boolean or `None`) not in the catalog, `parse_status` logs an error, leaves
the corresponding local unassigned, and then fails at runtime
(`UnboundLocalError`) when the f-string references it — it never returns a
message.  An unhashable status value (a list or dict) instead makes the
membership test itself raise `TypeError`, with no unknown-status log. -/
theorem c9_amended_defective_record_runtime_failure (kvs : PyDict) (nv sv : PyVal)
    (hname : dictLookup kvs "homework_name" = some nv)
    (hst : dictLookup kvs "status" = some sv)
    (hhash : pyHashable sv = true)
    (hbad : pyTruthy nv = false ∨ isKnownStatus sv = false) :
    (∃ v, (parse_status (.dict kvs)).2 = .error (.unboundLocal v)) ∧
    (∃ msg, (Level.error, msg) ∈ (parse_status (.dict kvs)).1) := by
  cases hnv : pyTruthy nv with
  | false =>
    cases sv with
    | list xs => simp [pyHashable] at hhash
    | dict d => simp [pyHashable] at hhash
    | str s =>
      constructor
      · exact ⟨"homework_name",
          by simp [parse_status, pyContains, pyGetItemStr, statusInCatalog, hname, hst, hnv]⟩
      · exact ⟨"Отсуствует имя проекта",
          by simp [parse_status, pyContains, pyGetItemStr, statusInCatalog, hname, hst, hnv]⟩
    | none =>
      constructor
      · exact ⟨"homework_name",
          by simp [parse_status, pyContains, pyGetItemStr, statusInCatalog, hname, hst, hnv]⟩
      · exact ⟨"Отсуствует имя проекта",
          by simp [parse_status, pyContains, pyGetItemStr, statusInCatalog, hname, hst, hnv]⟩
    | int n =>
      constructor
      · exact ⟨"homework_name",
          by simp [parse_status, pyContains, pyGetItemStr, statusInCatalog, hname, hst, hnv]⟩
      · exact ⟨"Отсуствует имя проекта",
          by simp [parse_status, pyContains, pyGetItemStr, statusInCatalog, hname, hst, hnv]⟩
    | bool b =>
      constructor
      · exact ⟨"homework_name",
          by simp [parse_status, pyContains, pyGetItemStr, statusInCatalog, hname, hst, hnv]⟩
      · exact ⟨"Отсуствует имя проекта",
          by simp [parse_status, pyContains, pyGetItemStr, statusInCatalog, hname, hst, hnv]⟩
  | true =>
    have hks : isKnownStatus sv = false := by
      rcases hbad with hb | hb
      · rw [hb] at hnv; exact absurd hnv (by simp)
      · exact hb
    cases sv with
    | list xs => simp [pyHashable] at hhash
    | dict d => simp [pyHashable] at hhash
    | str s =>
      have hlv : lookupVerdict s = Option.none := by
        cases hv : lookupVerdict s with
        | none => rfl
        | some v => simp [isKnownStatus, hv] at hks
      constructor
      · exact ⟨"verdict",
          by simp [parse_status, pyContains, pyGetItemStr, statusInCatalog, hname, hst, hnv, hlv]⟩
      · exact ⟨"Неизвестный статус проекта",
          by simp [parse_status, pyContains, pyGetItemStr, statusInCatalog, hname, hst, hnv, hlv]⟩
    | none =>
      constructor
      · exact ⟨"verdict",
          by simp [parse_status, pyContains, pyGetItemStr, statusInCatalog, hname, hst, hnv]⟩
      · exact ⟨"Неизвестный статус проекта",
          by simp [parse_status, pyContains, pyGetItemStr, statusInCatalog, hname, hst, hnv]⟩
    | int n =>
      constructor
      · exact ⟨"verdict",
          by simp [parse_status, pyContains, pyGetItemStr, statusInCatalog, hname, hst, hnv]⟩
      · exact ⟨"Неизвестный статус проекта",
          by simp [parse_status, pyContains, pyGetItemStr, statusInCatalog, hname, hst, hnv]⟩
    | bool b =>
      constructor
      · exact ⟨"verdict",
          by simp [parse_status, pyContains, pyGetItemStr, statusInCatalog, hname, hst, hnv]⟩
      · exact ⟨"Неизвестный статус проекта",
          by simp [parse_status, pyContains, pyGetItemStr, statusInCatalog, hname, hst, hnv]⟩

/-- Witness for the amended C9: a record with an empty name and a known
(hashable) status. -/
theorem c9_amended_defective_record_runtime_failure_witness :
    (∃ v, (parse_status (.dict (.cons "homework_name" (.str "")
            (.cons "status" (.str "approved") .nil)))).2 = .error (.unboundLocal v)) ∧
    (∃ msg, (Level.error, msg) ∈ (parse_status (.dict (.cons "homework_name" (.str "")
            (.cons "status" (.str "approved") .nil)))).1) :=
  c9_amended_defective_record_runtime_failure _ (.str "") (.str "approved") rfl rfl rfl
    (Or.inl rfl)

/-- Counterexample to C10 as stated: a 200 response whose decoded body is the
empty (falsy) dict, but whose response object is truthy — as `requests` makes
every 200 response, since `bool(response)` is derived from the status code —
is returned successfully; no empty-response error is raised for it. -/
theorem c10_counterexample_truthy_200_empty_body :
    pyTruthy (PyVal.dict .nil) = false ∧
    get_api_answer ⟨200, true, .dict .nil⟩ = ([], .ok (.dict .nil)) :=
  ⟨rfl, rfl⟩

/-- Claim C10 as amended: `get_api_answer` raises the generic empty-response
`Exception` exactly when the 200 response OBJECT is falsy (the code tests
`not response`, not the body), logging the error first; for some response
with an empty/falsy body — one whose response object is falsy — this branch
is indeed taken. -/
theorem c10_amended_falsy_response_object (resp : HttpResponse)
    (h200 : resp.statusCode = 200) (hf : resp.truthy = false) :
    get_api_answer resp =
      ([(Level.error, "Получен пусто ответ при обращении к API")],
       .error (.exn "Получен пусто ответ при обращении к API")) := by
  simp [get_api_answer, h200, hf]

/-- Witness for the amended C10: a falsy response object carrying an
empty/falsy body. -/
theorem c10_amended_falsy_response_object_witness :
    get_api_answer ⟨200, false, .dict .nil⟩ =
      ([(Level.error, "Получен пусто ответ при обращении к API")],
       .error (.exn "Получен пусто ответ при обращении к API")) :=
  c10_amended_falsy_response_object ⟨200, false, .dict .nil⟩ rfl rfl

/-- Counterexample to C1 as stated: with all credentials present, an HTTP 404
on the cycle's SECOND fetch — the one the success path performs in the
`try`/`except`/`else`'s `else` clause, outside the handler — escapes the loop
and terminates the process, although the credentials are not missing. -/
theorem c1_counterexample_else_crash :
    (pyTruthy envElse404.practicumToken && pyTruthy envElse404.telegramToken
      && pyTruthy envElse404.telegramChatId) = true ∧
    (cycle envElse404).outcome = .crashed (.httpError "Код ответа API: 404") :=
  ⟨rfl, rfl⟩

/-- Claim C1 as amended: any exception raised during the `try` suite of a
cycle (first fetch, validation, status derivation) is caught by the top-level
handler, which logs `Сбой в работе программы: {error}`, best-effort-notifies
the chat with that message, sleeps, and continues the loop; exceptions raised
in the `else` suite (the success path's second fetch/validation/formatting)
are NOT caught and terminate the process. -/
theorem c1_amended_try_errors_caught (env : Env) (e : PyError)
    (htok : (pyTruthy env.practicumToken && pyTruthy env.telegramToken
             && pyTruthy env.telegramChatId) = true)
    (htry : tryResult env = .error e) :
    (cycle env).outcome = .continued ∧
    (cycle env).sent = ["Сбой в работе программы: " ++ errStr e] ∧
    (Level.error, "Сбой в работе программы: " ++ errStr e) ∈ (cycle env).logs := by
  rcases hp : tryPhase env with ⟨pl, r⟩
  have hr : r = .error e := by simpa [tryResult, hp] using htry
  subst hr
  have hck := check_tokens_of_true env.practicumToken env.telegramToken env.telegramChatId htok
  simp [cycle, hck, hp]

/-- Witness for the amended C1: the first fetch fails with HTTP 404; the
cycle logs, notifies, and continues. -/
theorem c1_amended_try_errors_caught_witness :
    (cycle env404).outcome = .continued ∧
    (cycle env404).sent =
      ["Сбой в работе программы: " ++ errStr (.httpError "Код ответа API: 404")] ∧
    (Level.error, "Сбой в работе программы: " ++ errStr (.httpError "Код ответа API: 404"))
      ∈ (cycle env404).logs :=
  c1_amended_try_errors_caught env404 (.httpError "Код ответа API: 404") rfl rfl

/-- Counterexample to C2 as stated: the code keeps no status across cycles.
Take cycle A, whose fetches both report `"approved"` (it notifies nothing, and
the last status it derived and compared is `"approved"`), followed by cycle B,
whose fresh first homework status is again `"approved"`.  Under the claimed
persistent `last_known_status`, the spec's transition rule (`specNotifies`)
suppresses this duplicate.  The code instead sends a notification in cycle B,
because its comparison value is re-derived inside cycle B from an extra fetch
(which reported `"rejected"`), not carried over from cycle A. -/
theorem c2_counterexample_no_persistent_state :
    (cycle envA).sent = [] ∧
    elseStatus envA = .ok (.str "approved") ∧
    specNotifies (.str "approved") (.str "approved") = false ∧
    elseStatus envB = .ok (.str "approved") ∧
    (cycle envB).sent =
      ["Изменился статус проверки работы \"hw\". Работа проверена: ревьюеру всё понравилось. Ура!"] :=
  ⟨rfl, rfl, rfl, rfl, rfl⟩

/-- Claim C2 as amended: the loop's duplicate suppression uses a per-cycle
local, not process-lifetime state.  Each cycle derives `status` from its own
first fetch and `new_status` from a second fetch performed in the same cycle,
and sends a notification exactly when `new_status` is truthy and differs from
that same-cycle `status`; nothing is initialized to `None` before the loop or
carried between iterations. -/
theorem c2_amended_within_cycle_comparison (env : Env) (s nu h : PyVal) (msg : String)
    (htok : (pyTruthy env.practicumToken && pyTruthy env.telegramToken
             && pyTruthy env.telegramChatId) = true)
    (htry : tryResult env = .ok s)
    (helse : elseStatus env = .ok nu)
    (hfh : firstHomework2 env = .ok h)
    (hparse : (parse_status h).2 = .ok msg) :
    (cycle env).sent = (if pyTruthy nu && !(pyBeq s nu) then [msg] else []) ∧
    (cycle env).outcome = .continued := by
  rcases hp : tryPhase env with ⟨pl, r⟩
  have hr : r = .ok s := by simpa [tryResult, hp] using htry
  subst hr
  have hck := check_tokens_of_true env.practicumToken env.telegramToken env.telegramChatId htok
  rcases hsh : secondHomeworks env with e | homeworks
  · simp [elseStatus, hsh] at helse
  · have hfs : firstStatus homeworks = .ok nu := by simpa [elseStatus, hsh] using helse
    obtain ⟨l1, resp, l2, hga, hcr⟩ := secondHomeworks_elim env homeworks hsh
    cases homeworks with
    | nil => simp [firstHomework2, hsh] at hfh
    | cons h0 tl =>
      have hh0 : h0 = h := by simpa [firstHomework2, hsh] using hfh
      rcases hps : parse_status h0 with ⟨l3, pr⟩
      have hpr : pr = .ok msg := by
        have hparse0 : (parse_status h0).2 = .ok msg := by rw [hh0]; exact hparse
        simpa [hps] using hparse0
      subst hpr
      cases hcond : (pyTruthy nu && !(pyBeq s nu)) with
      | true =>
        have hel : elsePhase env s =
            (l1 ++ l2 ++ l3 ++ send_message env.sendFail msg, [msg], .ok ()) := by
          simp [elsePhase, hga, hcr, hfs, hcond, hps]
        simp [cycle, hck, hp, hel, hcond]
      | false =>
        have hel : elsePhase env s =
            (l1 ++ l2 ++ [(Level.debug, "Статус работы не изменился")], [], .ok ()) := by
          simp [elsePhase, hga, hcr, hfs, hcond]
        simp [cycle, hck, hp, hel, hcond]

/-- Witness for the amended C2: cycle B's notification is decided by its own
two fetches (`"rejected"` then `"approved"`). -/
theorem c2_amended_within_cycle_comparison_witness :
    (cycle envB).sent =
      (if pyTruthy (.str "approved") && !(pyBeq (.str "rejected") (.str "approved"))
       then ["Изменился статус проверки работы \"hw\". Работа проверена: ревьюеру всё понравилось. Ура!"]
       else []) ∧
    (cycle envB).outcome = .continued :=
  c2_amended_within_cycle_comparison envB (.str "rejected") (.str "approved")
    (hwRecord "hw" "approved")
    "Изменился статус проверки работы \"hw\". Работа проверена: ревьюеру всё понравилось. Ура!"
    rfl rfl rfl rfl rfl

/-- Claim C3: whenever the first homework's status delivered by the cycle's
second fetch equals the status recorded from the preceding fetch (the
cycle's first), no notification is sent — the cycle only logs the debug
no-op line and continues.  In particular, serving the identical unchanged
payload to both fetches of a cycle never produces a notification. -/
theorem c3_equal_status_no_notification (env : Env) (s nu : PyVal)
    (htok : (pyTruthy env.practicumToken && pyTruthy env.telegramToken
             && pyTruthy env.telegramChatId) = true)
    (htry : tryResult env = .ok s)
    (helse : elseStatus env = .ok nu)
    (heq : nu = s) :
    (cycle env).sent = [] ∧
    (Level.debug, "Статус работы не изменился") ∈ (cycle env).logs ∧
    (cycle env).outcome = .continued := by
  have helse2 : elseStatus env = .ok s := heq ▸ helse
  rcases hp : tryPhase env with ⟨pl, r⟩
  have hr : r = .ok s := by simpa [tryResult, hp] using htry
  subst hr
  have hck := check_tokens_of_true env.practicumToken env.telegramToken env.telegramChatId htok
  rcases hsh : secondHomeworks env with e | homeworks
  · simp [elseStatus, hsh] at helse2
  · have hfs : firstStatus homeworks = .ok s := by simpa [elseStatus, hsh] using helse2
    obtain ⟨l1, resp, l2, hga, hcr⟩ := secondHomeworks_elim env homeworks hsh
    have hel : elsePhase env s =
        (l1 ++ l2 ++ [(Level.debug, "Статус работы не изменился")], [], .ok ()) := by
      simp [elsePhase, hga, hcr, hfs, pyBeq_refl]
    simp [cycle, hck, hp, hel]

/-- Witness for C3: both fetches of the cycle serve the identical payload
with status `"approved"`; nothing is sent and the debug no-op is logged. -/
theorem c3_equal_status_no_notification_witness :
    (cycle envA).sent = [] ∧
    (Level.debug, "Статус работы не изменился") ∈ (cycle envA).logs ∧
    (cycle envA).outcome = .continued :=
  c3_equal_status_no_notification envA (.str "approved") (.str "approved")
    rfl rfl rfl rfl

end HomeworkBot
